import Mathlib

/-
Verification of the trade domain of the python-trading-journal service.

Shallow embedding conventions:
- Python `Decimal` (and the repository's `float(...)` conversions of such
  values) are modelled as exact rationals `ℚ`.
- Python strings are modelled as `List Char`; `str.upper` is `List.map
  Char.toUpper` and `str.strip` drops whitespace from both ends.
- Timestamps (`datetime`, `NOW()`) are modelled as opaque integers `Int`.
- `None` / optional fields are `Option _`; a fallible check returns
  `Except fieldName Unit` mirroring `ValidationException(field=...)`.
-/

/-- Enumeration `TradeSide` from app/domains/trade/models.py (values
"buy" and "sell"). -/
inductive TradeSide where
  | buy
  | sell
deriving DecidableEq, Repr

/-- Python `str.upper()` on a string modelled as a character list. -/
def pyUpper (s : List Char) : List Char := s.map Char.toUpper

/-- Python `str.strip()`: drop whitespace from both ends of the string. -/
def pyStrip (s : List Char) : List Char :=
  ((s.dropWhile Char.isWhitespace).reverse.dropWhile Char.isWhitespace).reverse

/-- `TradeBase.normalize_symbol` from app/domains/trade/models.py:
`return v.upper().strip()`, run after pydantic's length constraints. -/
def normalize_symbol (s : List Char) : List Char := pyStrip (pyUpper s)

/-- Pydantic length constraints on `TradeBase.symbol`: `min_length=1,
max_length=20`, checked on the raw input string before the
`normalize_symbol` validator runs. -/
def symbol_accepted (s : List Char) : Bool :=
  decide (1 ≤ s.length) && decide (s.length ≤ 20)

/-- Default of `TradeBase.lot_size` (`Field(default=1, gt=0)`). -/
def lot_size_default : ℚ := 1

/-- Pydantic constraint `gt=0` on `TradeBase.lot_size`: acceptance of a
lot size by the create payload (no upper bound on create). -/
def create_accepts_lot_size (v : ℚ) : Bool := decide (0 < v)

/-- `TradeUpdate.validate_lot_size` from app/domains/trade/models.py:
rejects values at most 0 and values above 100. -/
def TradeUpdate.validate_lot_size (v : ℚ) : Except String ℚ :=
  if v ≤ 0 then Except.error "Lot size must be greater than 0"
  else if v > 100 then Except.error "Lot size cannot exceed 100"
  else Except.ok v

/-- Acceptance of a lot size by the update payload: the pydantic field
constraint `gt=0` together with `TradeUpdate.validate_lot_size`. -/
def update_accepts_lot_size (v : ℚ) : Bool :=
  decide (0 < v) && (TradeUpdate.validate_lot_size v).isOk

/-- Stored trade record: the columns the repository reads and writes
(`id, symbol, side, quantity, entry_price, entry_time, exit_price,
exit_time, fees, notes, pnl, created_at, updated_at`) plus `lot_size`,
which the service-level `Trade` model carries (the repository's UPDATE
`field_mapping` never writes it). -/
structure Trade where
  id : Nat
  symbol : List Char
  side : TradeSide
  quantity : ℚ
  lot_size : ℚ
  entry_price : ℚ
  entry_time : Int
  exit_price : Option ℚ
  exit_time : Option Int
  fees : ℚ
  notes : Option (List Char)
  pnl : Option ℚ
  created_at : Int
  updated_at : Int
deriving DecidableEq, Repr

/-- `TradeUpdate` payload from app/domains/trade/models.py: every field
optional; `none` means the field is absent from the update. -/
structure TradeUpdate where
  symbol : Option (List Char) := none
  side : Option TradeSide := none
  quantity : Option ℚ := none
  lot_size : Option ℚ := none
  entry_price : Option ℚ := none
  entry_time : Option Int := none
  stop_loss : Option ℚ := none
  take_profit : Option ℚ := none
  exit_price : Option ℚ := none
  exit_time : Option Int := none
  exit_reason : Option (List Char) := none
  fees : Option ℚ := none
  notes : Option (List Char) := none
  pnl : Option ℚ := none
  checklist_grade : Option (List Char) := none
  checklist_score : Option Int := none
deriving DecidableEq, Repr

/-- `_compute_pnl` from app/domains/trade/service.py. -/
def compute_pnl (side : TradeSide) (quantity lot_size entry_price : ℚ)
    (exit_price : Option ℚ) (fees : ℚ) : Option ℚ :=
  match exit_price with
  | none => none
  | some ep =>
    let gross :=
      match side with
      | TradeSide.buy => (ep - entry_price) * quantity * lot_size
      | TradeSide.sell => (entry_price - ep) * quantity * lot_size
    some (gross - fees)

/-- Payload reaching `validate_trade_data` at its only call site
(`create_trade` passes `trade_in.model_dump()` of a validated
`TradeCreate`): all required fields present and numeric, `side` one of
buy and sell, so only the price-relationship checks can fire. -/
structure TradeData where
  symbol : List Char
  side : TradeSide
  quantity : ℚ
  entry_price : ℚ
  stop_loss : ℚ
  take_profit : ℚ
  fees : ℚ
deriving DecidableEq, Repr

/-- `validate_trade_data` from app/core/error_handlers.py restricted to
complete well-typed payloads (its required-field, numeric-parse and
side-membership checks pass on such payloads by construction); returns
the `field` of the `ValidationException` it raises, in source order.
The embedding is a pure function, matching the source's lack of side
effects. -/
def validate_trade_data (d : TradeData) : Except String Unit :=
  match d.side with
  | TradeSide.buy =>
    if d.stop_loss ≥ d.entry_price then Except.error "stop_loss"
    else if d.take_profit ≤ d.entry_price then Except.error "take_profit"
    else Except.ok ()
  | TradeSide.sell =>
    if d.stop_loss ≤ d.entry_price then Except.error "stop_loss"
    else if d.take_profit ≥ d.entry_price then Except.error "take_profit"
    else Except.ok ()

/-- The repository write expression `float(pnl) if pnl else None` used by
both `TradeRepository.create` and `TradeRepository.update`: Python
truthiness makes both `None` and `Decimal(0)` falsy, so a zero PnL is
written as NULL. -/
def pnl_param (pnl : Option ℚ) : Option ℚ :=
  match pnl with
  | none => none
  | some v => if v = 0 then none else some v

/-- `TradeCreate` payload from app/domains/trade/models.py (after
pydantic validation): required base fields plus optional exit data. -/
structure TradeCreate where
  symbol : List Char
  side : TradeSide
  quantity : ℚ
  lot_size : ℚ
  entry_price : ℚ
  entry_time : Int
  stop_loss : ℚ
  take_profit : ℚ
  fees : ℚ
  notes : Option (List Char) := none
  exit_price : Option ℚ := none
  exit_time : Option Int := none
deriving DecidableEq, Repr

/-- `TradeRepository.create` from app/domains/trade/repository.py: the
row INSERTed (and returned) for a create. `id`, `created_at` and
`updated_at` are assigned by storage and passed here as parameters.
The INSERT column list has no `lot_size` column, so the stored value is
the table default; modelled from the spec: the default is 1 (the
migration file 005_add_lot_size.sql is not part of the sources). -/
def TradeRepository.create (trade_in : TradeCreate) (pnl : Option ℚ)
    (newId : Nat) (now : Int) : Trade :=
  { id := newId
    symbol := trade_in.symbol
    side := trade_in.side
    quantity := trade_in.quantity
    lot_size := lot_size_default
    entry_price := trade_in.entry_price
    entry_time := trade_in.entry_time
    exit_price := trade_in.exit_price
    exit_time := trade_in.exit_time
    fees := trade_in.fees
    notes := trade_in.notes
    pnl := pnl_param pnl
    created_at := now
    updated_at := now }

/-- `TradeRepository.update` from app/domains/trade/repository.py: for
each field of `field_mapping` (symbol, side, quantity, entry_price,
entry_time, exit_price, exit_time, fees, notes) a non-None payload value
is SET and an absent one leaves the stored column unchanged; `pnl` is
always SET to `float(pnl) if pnl else None` and `updated_at` to NOW().
`lot_size` is not in `field_mapping` and is never written. -/
def TradeRepository.update (existing : Trade) (trade_in : TradeUpdate)
    (pnl : Option ℚ) (now : Int) : Trade :=
  { existing with
    symbol := match trade_in.symbol with | some v => v | none => existing.symbol
    side := match trade_in.side with | some v => v | none => existing.side
    quantity := match trade_in.quantity with | some v => v | none => existing.quantity
    entry_price := match trade_in.entry_price with | some v => v | none => existing.entry_price
    entry_time := match trade_in.entry_time with | some v => v | none => existing.entry_time
    exit_price := match trade_in.exit_price with | some v => some v | none => existing.exit_price
    exit_time := match trade_in.exit_time with | some v => some v | none => existing.exit_time
    fees := match trade_in.fees with | some v => v | none => existing.fees
    notes := match trade_in.notes with | some v => some v | none => existing.notes
    pnl := pnl_param pnl
    updated_at := now }

/-- PnL selection of `update_trade` in app/domains/trade/service.py:
the caller-supplied `trade_in.pnl` when present, otherwise
`_compute_pnl` over the effective (merged) side, quantity, lot_size,
entry_price, exit_price and fees. -/
def update_trade_pnl (existing : Trade) (trade_in : TradeUpdate) : Option ℚ :=
  let side_eff := match trade_in.side with | some v => v | none => existing.side
  let entry_price_eff := match trade_in.entry_price with | some v => v | none => existing.entry_price
  let quantity_eff := match trade_in.quantity with | some v => v | none => existing.quantity
  let lot_size_eff := match trade_in.lot_size with | some v => v | none => existing.lot_size
  let exit_price_eff := match trade_in.exit_price with | some v => some v | none => existing.exit_price
  let fees_eff := match trade_in.fees with | some v => v | none => existing.fees
  match trade_in.pnl with
  | some v => some v
  | none => compute_pnl side_eff quantity_eff lot_size_eff entry_price_eff exit_price_eff fees_eff

/-- `update_trade` from app/domains/trade/service.py applied to an
existing trade: merge-and-recompute (or take the supplied `pnl`), then
write through `TradeRepository.update`. -/
def update_trade (existing : Trade) (trade_in : TradeUpdate) (now : Int) : Trade :=
  TradeRepository.update existing trade_in (update_trade_pnl existing trade_in) now

/-- An update payload that sets only `notes`. -/
def notes_only (n : List Char) : TradeUpdate := { notes := some n }

/-- The asyncpg status string returned by `conn.execute` for a DELETE
that removed `n` rows: `"DELETE n"`. -/
def delete_status (n : Nat) : List Char := "DELETE ".toList ++ (toString n).toList

/-- `TradeRepository.delete` from app/domains/trade/repository.py:
executes `DELETE FROM trades WHERE id = $1` and returns
`result.endswith(" 1")`. The table is a list of rows; the first
component is the table after the delete, the second the boolean the
method returns. The embedding is total: no path raises. -/
def TradeRepository.delete (table : List Trade) (trade_id : Nat) :
    List Trade × Bool :=
  let removed := (table.filter (fun t => t.id = trade_id)).length
  (table.filter (fun t => t.id ≠ trade_id),
   (" 1".toList).isSuffixOf (delete_status removed))

/-- Comparison realising `ORDER BY entry_time DESC, id DESC`: `a` sorts
no later than `b`. -/
def trade_before (a b : Trade) : Bool :=
  (decide (b.entry_time < a.entry_time)) ||
    ((decide (b.entry_time = a.entry_time)) && decide (b.id ≤ a.id))

/-- Insertion into a list sorted by `trade_before`. -/
def insert_sorted (a : Trade) : List Trade → List Trade
  | [] => [a]
  | b :: rest => if trade_before a b then a :: b :: rest else b :: insert_sorted a rest

/-- Sorting by `entry_time` descending then `id` descending. -/
def order_by_entry_time_id_desc (l : List Trade) : List Trade :=
  l.foldr insert_sorted []

/-- `TradeRepository.list` from app/domains/trade/repository.py (as
called from the service: no `side` filter): WHERE symbol = upper(symbol)
when the symbol argument is truthy (non-None and non-empty), ORDER BY
entry_time DESC, id DESC, then OFFSET/LIMIT. -/
def TradeRepository.list (table : List Trade) (symbol : Option (List Char))
    (limit offset : Nat) : List Trade :=
  let filtered :=
    match symbol with
    | none => table
    | some s => if s = [] then table else table.filter (fun t => t.symbol = pyUpper s)
  ((order_by_entry_time_id_desc filtered).drop offset).take limit

/-- `list_trades` from app/domains/trade/service.py: `symbol_norm =
symbol.upper() if symbol else None` (so an empty string is treated as
no filter), then the repository list. -/
def service_list_trades (table : List Trade) (symbol : Option (List Char))
    (limit offset : Nat) : List Trade :=
  let symbol_norm :=
    match symbol with
    | none => none
    | some s => if s = [] then none else some (pyUpper s)
  TradeRepository.list table symbol_norm limit offset

/-- Response body assembled by the `list_trades` route in
app/api/v1/routers/trade_router.py. -/
structure TradeListResponse where
  trades : List Trade
  total : Nat
  page : Nat
  size : Nat
  pages : Nat
deriving DecidableEq, Repr

/-- The `list_trades` route from app/api/v1/routers/trade_router.py:
fetches one page from the service, then sets `total = len(trades)`,
`page = offset // limit + 1`, `pages = (total + limit - 1) // limit`. -/
def list_trades_route (table : List Trade) (symbol : Option (List Char))
    (limit offset : Nat) : TradeListResponse :=
  let trades := service_list_trades table symbol limit offset
  let total := trades.length
  { trades := trades
    total := total
    page := offset / limit + 1
    size := limit
    pages := (total + limit - 1) / limit }

/-- Number of stored records matching the route's symbol filter (what a
total count over the whole table would report). -/
def matching_trades (table : List Trade) (symbol : Option (List Char)) : List Trade :=
  match symbol with
  | none => table
  | some s => if s = [] then table else table.filter (fun t => t.symbol = pyUpper s)

/-- Claim C1: `_compute_pnl` returns null exactly when `exit_price` is
absent (for both sides); with an exit price it returns
`(exit_price - entry_price) * quantity * lot_size - fees` for buy and
`(entry_price - exit_price) * quantity * lot_size - fees` for sell. -/
theorem compute_pnl_spec :
    ∀ (side : TradeSide) (q l e f : ℚ) (xp : Option ℚ),
      (compute_pnl side q l e xp f = none ↔ xp = none) ∧
      (∀ ep : ℚ,
        compute_pnl TradeSide.buy q l e (some ep) f = some ((ep - e) * q * l - f)) ∧
      (∀ ep : ℚ,
        compute_pnl TradeSide.sell q l e (some ep) f = some ((e - ep) * q * l - f)) := by
  intro side q l e f xp
  refine ⟨?_, fun ep => rfl, fun ep => rfl⟩
  cases xp <;> cases side <;> simp [compute_pnl]

/-- Claim C5: with positive quantity and lot size, a buy closed above
entry (and a sell closed below entry) has strictly positive PnL before
fees, and for any side the computed PnL strictly decreases as fees
increase. -/
theorem compute_pnl_sign_and_fees (q l e ep : ℚ) (hq : 0 < q) (hl : 0 < l) :
    (e < ep →
      compute_pnl TradeSide.buy q l e (some ep) 0 = some ((ep - e) * q * l) ∧
      0 < (ep - e) * q * l) ∧
    (ep < e →
      compute_pnl TradeSide.sell q l e (some ep) 0 = some ((e - ep) * q * l) ∧
      0 < (e - ep) * q * l) ∧
    (∀ (side : TradeSide) (f₁ f₂ : ℚ), f₁ < f₂ →
      (compute_pnl side q l e (some ep) f₂).getD 0 <
        (compute_pnl side q l e (some ep) f₁).getD 0) := by
  refine ⟨fun h => ⟨by simp [compute_pnl], ?_⟩, fun h => ⟨by simp [compute_pnl], ?_⟩, ?_⟩
  · have hpos : 0 < ep - e := by linarith
    positivity
  · have hpos : 0 < e - ep := by linarith
    positivity
  · intro side f₁ f₂ hf
    cases side <;> simp [compute_pnl] <;> linarith

/-- Concrete instance of `compute_pnl_sign_and_fees` at a buy trade with
quantity 1, lot size 1, entry 1, exit 2. -/
theorem compute_pnl_sign_and_fees_witness :
    compute_pnl TradeSide.buy 1 1 1 (some 2) 0 = some (((2:ℚ) - 1) * 1 * 1) ∧
    0 < ((2:ℚ) - 1) * 1 * 1 :=
  (compute_pnl_sign_and_fees 1 1 1 2 (by norm_num) (by norm_num)).1 (by norm_num)

/-- Claim C3: on a complete payload, `validate_trade_data` fails naming
the offending field exactly when for buy `stop_loss >= entry_price` or
`take_profit <= entry_price` (so the boundary `stop_loss = entry_price`
is rejected and a strictly lower stop loss passes that check), and for
sell `stop_loss <= entry_price` or `take_profit >= entry_price`; the
embedded check is a pure function with no side effect. -/
theorem validate_trade_data_spec :
    ∀ d : TradeData,
      (d.side = TradeSide.buy →
        (validate_trade_data d = Except.ok () ↔
          d.stop_loss < d.entry_price ∧ d.entry_price < d.take_profit)) ∧
      (d.side = TradeSide.sell →
        (validate_trade_data d = Except.ok () ↔
          d.entry_price < d.stop_loss ∧ d.take_profit < d.entry_price)) ∧
      (d.side = TradeSide.buy → d.stop_loss ≥ d.entry_price →
        validate_trade_data d = Except.error "stop_loss") ∧
      (d.side = TradeSide.buy → d.stop_loss < d.entry_price →
        d.take_profit ≤ d.entry_price →
        validate_trade_data d = Except.error "take_profit") ∧
      (d.side = TradeSide.sell → d.stop_loss ≤ d.entry_price →
        validate_trade_data d = Except.error "stop_loss") ∧
      (d.side = TradeSide.sell → d.entry_price < d.stop_loss →
        d.take_profit ≥ d.entry_price →
        validate_trade_data d = Except.error "take_profit") := by
  intro d
  cases hside : d.side with
  | buy =>
    refine ⟨fun _ => ?_, fun hs => absurd hs (by simp [hside]), fun _ h1 => ?_,
      fun _ h1 h2 => ?_, fun hs => absurd hs (by simp [hside]),
      fun hs => absurd hs (by simp [hside])⟩ <;>
      simp only [validate_trade_data, hside]
    · split_ifs with h1 h2
      · simp
        intro hP
        linarith
      · simp
        intro hP
        linarith
      · push_neg at h1 h2
        simp
        exact ⟨h1, h2⟩
    · rw [if_pos h1]
    · rw [if_neg (not_le.mpr h1), if_pos h2]
  | sell =>
    refine ⟨fun hb => absurd hb (by simp [hside]), fun _ => ?_,
      fun hb => absurd hb (by simp [hside]), fun hb => absurd hb (by simp [hside]),
      fun _ h1 => ?_, fun _ h1 h2 => ?_⟩ <;>
      simp only [validate_trade_data, hside]
    · split_ifs with h1 h2
      · simp
        intro hP
        linarith
      · simp
        intro hP
        linarith
      · push_neg at h1 h2
        simp
        exact ⟨h1, h2⟩
    · rw [if_pos h1]
    · rw [if_neg (not_le.mpr h1), if_pos h2]

/-- Concrete instance of `validate_trade_data_spec`: a buy trade with
`stop_loss = entry_price = 100` is rejected naming `stop_loss`, and one
with `stop_loss = 99.99` (entry 100, take profit 110) passes. -/
theorem validate_trade_data_witness :
    validate_trade_data ⟨"AAPL".toList, TradeSide.buy, 1, 100, 100, 110, 0⟩ =
      Except.error "stop_loss" ∧
    validate_trade_data ⟨"AAPL".toList, TradeSide.buy, 1, 100, (9999/100 : ℚ), 110, 0⟩ =
      Except.ok () := by
  constructor
  · exact (validate_trade_data_spec _).2.2.1 rfl (le_refl _)
  · exact ((validate_trade_data_spec _).1 rfl).mpr ⟨by norm_num, by norm_num⟩

/-- Counterexample to claim C9 as stated: lot size 100000 is accepted by
the create payload but rejected by the update payload, whose
`validate_lot_size` caps the value at 100. -/
theorem lot_size_update_cap_cex :
    create_accepts_lot_size 100000 = true ∧
    update_accepts_lot_size 100000 = false := by
  constructor
  · norm_num [create_accepts_lot_size]
  · norm_num [update_accepts_lot_size, TradeUpdate.validate_lot_size,
      Except.isOk, Except.toBool]

/-- Claim C9 (amended): the create payload accepts exactly the strictly
positive lot sizes (default 1 when absent); the update payload accepts
exactly the strictly positive lot sizes up to 100, rejecting larger
values; neither accepts a value at most 0. -/
theorem lot_size_accepts_spec :
    (∀ v : ℚ, create_accepts_lot_size v = true ↔ 0 < v) ∧
    (∀ v : ℚ, update_accepts_lot_size v = true ↔ 0 < v ∧ v ≤ 100) ∧
    lot_size_default = 1 := by
  refine ⟨fun v => by simp [create_accepts_lot_size], fun v => ?_, rfl⟩
  simp only [update_accepts_lot_size, TradeUpdate.validate_lot_size]
  split_ifs with h1 h2
  · simp only [Except.isOk, Except.toBool, Bool.and_false, Bool.false_eq_true,
      false_iff, not_and]
    intro hv hle
    linarith
  · simp only [Except.isOk, Except.toBool, Bool.and_false, Bool.false_eq_true,
      false_iff, not_and]
    intro hv hle
    linarith
  · simp only [Except.isOk, Except.toBool, Bool.and_true, decide_eq_true_eq]
    constructor
    · intro hv
      exact ⟨hv, by linarith⟩
    · intro hv
      exact hv.1

/-- Dropping a prefix by predicate never lengthens a list. -/
lemma length_dropWhile_le (p : Char → Bool) (l : List Char) :
    (l.dropWhile p).length ≤ l.length := by
  induction l with
  | nil => simp
  | cons a l ih =>
    by_cases h : p a
    · rw [List.dropWhile_cons, if_pos h]
      exact le_trans ih (by simp)
    · rw [List.dropWhile_cons, if_neg h]

/-- Stripping never lengthens a string. -/
lemma length_pyStrip_le (s : List Char) : (pyStrip s).length ≤ s.length := by
  unfold pyStrip
  have h1 := length_dropWhile_le Char.isWhitespace s
  have h2 := length_dropWhile_le Char.isWhitespace
    ((s.dropWhile Char.isWhitespace).reverse)
  simp only [List.length_reverse] at h2 ⊢
  omega

/-- Counterexample to claim C8 as stated: the one-character whitespace
symbol passes the raw length bounds (checked before normalization) yet
normalizes to the empty string, so the stored symbol has length 0, below
the claimed minimum of 1. -/
theorem symbol_whitespace_accepted_cex :
    symbol_accepted [' '] = true ∧ normalize_symbol [' '] = [] ∧
    (normalize_symbol [' ']).length = 0 := by
  refine ⟨by decide, by decide, by decide⟩

/-- Claim C8 (amended): for every accepted symbol the stored value is the
input uppercased then stripped of surrounding whitespace and has length
at most 20; the lower bound 1 holds only for the raw input, since the
length constraints run before the normalizer, so a whitespace-only
symbol is stored as the empty string. -/
theorem symbol_normalize_spec (s : List Char) (h : symbol_accepted s = true) :
    normalize_symbol s = pyStrip (pyUpper s) ∧
    (normalize_symbol s).length ≤ 20 := by
  refine ⟨rfl, ?_⟩
  have hlen : s.length ≤ 20 := by
    simp only [symbol_accepted, Bool.and_eq_true, decide_eq_true_eq] at h
    exact h.2
  have hup : (pyUpper s).length = s.length := by simp [pyUpper]
  have hstrip := length_pyStrip_le (pyUpper s)
  unfold normalize_symbol
  omega

/-- Concrete instance of `symbol_normalize_spec` at the symbol
" aapl". -/
theorem symbol_normalize_spec_witness :
    normalize_symbol (" aapl".toList) = pyStrip (pyUpper (" aapl".toList)) ∧
    (normalize_symbol (" aapl".toList)).length ≤ 20 :=
  symbol_normalize_spec (" aapl".toList) (by decide)

/-- Claim C10: the repository write maps a zero PnL (computed or
caller-supplied) to NULL: `pnl_param` yields `none` exactly on `none`
and on zero, and a create or update given PnL zero persists a null
`pnl` column. -/
theorem pnl_zero_stored_as_null :
    (∀ p : Option ℚ, pnl_param p = none ↔ p = none ∨ p = some 0) ∧
    (∀ (ci : TradeCreate) (newId : Nat) (now : Int),
      (TradeRepository.create ci (some 0) newId now).pnl = none) ∧
    (∀ (ex : Trade) (u : TradeUpdate) (now : Int),
      (TradeRepository.update ex u (some 0) now).pnl = none) := by
  refine ⟨fun p => ?_, fun ci newId now => ?_, fun ex u now => ?_⟩
  · cases p with
    | none => simp [pnl_param]
    | some v =>
      simp only [pnl_param]
      by_cases hv : v = 0
      · simp [hv]
      · simp [hv]
  · simp [TradeRepository.create, pnl_param]
  · simp [TradeRepository.update, pnl_param]

/-- Claim C2: on update every mapped field present in the payload
overrides the stored value and every absent field retains it; a
caller-supplied `pnl` is taken verbatim as the value the service selects
for the write, bypassing recomputation; otherwise the selected pnl is
`_compute_pnl` over the merged effective side, quantity, lot_size,
entry_price, exit_price and fees; the row is written with the selected
value (through the repository's `pnl_param` conversion). -/
theorem update_merge_spec (ex : Trade) (u : TradeUpdate) (now : Int) :
    ((update_trade ex u now).symbol =
      (match u.symbol with | some v => v | none => ex.symbol)) ∧
    ((update_trade ex u now).side =
      (match u.side with | some v => v | none => ex.side)) ∧
    ((update_trade ex u now).quantity =
      (match u.quantity with | some v => v | none => ex.quantity)) ∧
    ((update_trade ex u now).entry_price =
      (match u.entry_price with | some v => v | none => ex.entry_price)) ∧
    ((update_trade ex u now).entry_time =
      (match u.entry_time with | some v => v | none => ex.entry_time)) ∧
    ((update_trade ex u now).exit_price =
      (match u.exit_price with | some v => some v | none => ex.exit_price)) ∧
    ((update_trade ex u now).exit_time =
      (match u.exit_time with | some v => some v | none => ex.exit_time)) ∧
    ((update_trade ex u now).fees =
      (match u.fees with | some v => v | none => ex.fees)) ∧
    ((update_trade ex u now).notes =
      (match u.notes with | some v => some v | none => ex.notes)) ∧
    (∀ v : ℚ, u.pnl = some v → update_trade_pnl ex u = some v) ∧
    (u.pnl = none → update_trade_pnl ex u =
      compute_pnl (match u.side with | some v => v | none => ex.side)
        (match u.quantity with | some v => v | none => ex.quantity)
        (match u.lot_size with | some v => v | none => ex.lot_size)
        (match u.entry_price with | some v => v | none => ex.entry_price)
        (match u.exit_price with | some v => some v | none => ex.exit_price)
        (match u.fees with | some v => v | none => ex.fees)) ∧
    (update_trade ex u now).pnl = pnl_param (update_trade_pnl ex u) := by
  refine ⟨rfl, rfl, rfl, rfl, rfl, rfl, rfl, rfl, rfl, ?_, ?_, rfl⟩
  · intro v hv
    simp [update_trade_pnl, hv]
  · intro hv
    simp [update_trade_pnl, hv]

/-- Sample stored open trade used in the concrete instances. -/
def sample_open_trade : Trade :=
  { id := 1
    symbol := "AAPL".toList
    side := TradeSide.buy
    quantity := 2
    lot_size := 100
    entry_price := 150
    entry_time := 10
    exit_price := none
    exit_time := none
    fees := (3/2 : ℚ)
    notes := none
    pnl := none
    created_at := 10
    updated_at := 10 }

/-- Concrete instance of `update_merge_spec`: an update supplying only
`pnl = 42` makes the service select 42 without recomputation. -/
theorem update_merge_spec_witness :
    update_trade_pnl sample_open_trade { pnl := some 42 } = some 42 :=
  ((update_merge_spec sample_open_trade { pnl := some 42 }
    0).2.2.2.2.2.2.2.2.2.1) 42 rfl

/-- Counterexample to claim C6 as stated: a notes-only update of the
sample open trade leaves `pnl` null and changes `notes`, but it also
modifies `updated_at` (the repository unconditionally sets
`updated_at = NOW()`), so `notes` is not the only modified field. -/
theorem notes_update_cex :
    (update_trade sample_open_trade (notes_only ("hi".toList)) 11).pnl = none ∧
    (update_trade sample_open_trade (notes_only ("hi".toList)) 11).notes =
      some ("hi".toList) ∧
    (update_trade sample_open_trade (notes_only ("hi".toList)) 11).updated_at ≠
      sample_open_trade.updated_at := by
  refine ⟨rfl, rfl, by decide⟩

/-- Claim C6 (amended): updating only `notes` on an existing open trade
leaves `pnl` null and every other stored field unchanged except
`updated_at`, which the repository refreshes to the write time. -/
theorem notes_only_update_frame (ex : Trade) (n : List Char) (now : Int)
    (hxp : ex.exit_price = none) (hxt : ex.exit_time = none) :
    (update_trade ex (notes_only n) now).pnl = none ∧
    (update_trade ex (notes_only n) now).notes = some n ∧
    (update_trade ex (notes_only n) now).updated_at = now ∧
    (update_trade ex (notes_only n) now).id = ex.id ∧
    (update_trade ex (notes_only n) now).symbol = ex.symbol ∧
    (update_trade ex (notes_only n) now).side = ex.side ∧
    (update_trade ex (notes_only n) now).quantity = ex.quantity ∧
    (update_trade ex (notes_only n) now).lot_size = ex.lot_size ∧
    (update_trade ex (notes_only n) now).entry_price = ex.entry_price ∧
    (update_trade ex (notes_only n) now).entry_time = ex.entry_time ∧
    (update_trade ex (notes_only n) now).exit_price = ex.exit_price ∧
    (update_trade ex (notes_only n) now).exit_time = ex.exit_time ∧
    (update_trade ex (notes_only n) now).fees = ex.fees ∧
    (update_trade ex (notes_only n) now).created_at = ex.created_at := by
  refine ⟨?_, rfl, rfl, rfl, rfl, rfl, rfl, rfl, rfl, rfl, ?_, ?_, rfl, rfl⟩
  · simp [update_trade, update_trade_pnl, TradeRepository.update, notes_only,
      compute_pnl, hxp, pnl_param]
  · simp [update_trade, TradeRepository.update, notes_only]
  · simp [update_trade, TradeRepository.update, notes_only]

/-- Concrete instance of `notes_only_update_frame` on the sample open
trade. -/
theorem notes_only_update_frame_witness :
    (update_trade sample_open_trade (notes_only ("adjusted".toList)) 12).pnl =
      none ∧
    (update_trade sample_open_trade (notes_only ("adjusted".toList)) 12).fees =
      sample_open_trade.fees :=
  ⟨(notes_only_update_frame sample_open_trade ("adjusted".toList) 12 rfl rfl).1,
   (notes_only_update_frame sample_open_trade ("adjusted".toList) 12 rfl
     rfl).2.2.2.2.2.2.2.2.2.2.2.2.1⟩

/-- A table whose rows have pairwise distinct ids holds at most one row
with any given id. -/
lemma filter_id_count_le_one (l : List Trade) (tid : Nat)
    (h : (l.map Trade.id).Nodup) :
    (l.filter (fun t => t.id = tid)).length ≤ 1 := by
  induction l with
  | nil => simp
  | cons a l ih =>
    simp only [List.map_cons, List.nodup_cons] at h
    by_cases ha : a.id = tid
    · rw [List.filter_cons_of_pos (by simp [ha])]
      have hnil : l.filter (fun t => t.id = tid) = [] := by
        rw [List.filter_eq_nil_iff]
        intro t ht
        simp only [decide_eq_true_eq]
        intro hid
        have hmem : a.id ∈ l.map Trade.id := by
          rw [ha, ← hid]
          exact List.mem_map_of_mem Trade.id ht
        exact h.1 hmem
      simp [hnil]
    · rw [List.filter_cons_of_neg (by simp [ha])]
      exact ih h.2

/-- Claim C7: on a table with unique ids, the delete operation's boolean
signal is true exactly when a row with the requested id existed (and was
removed); deleting a nonexistent id yields the not-found signal, and the
embedded operation is total, so no input raises. -/
theorem delete_found_spec (table : List Trade) (tid : Nat)
    (h : (table.map Trade.id).Nodup) :
    ((TradeRepository.delete table tid).2 = true ↔ ∃ t ∈ table, t.id = tid) ∧
    (TradeRepository.delete table tid).1 =
      table.filter (fun t => t.id ≠ tid) := by
  refine ⟨?_, rfl⟩
  have hdel2 : (TradeRepository.delete table tid).2 =
      (" 1".toList).isSuffixOf
        (delete_status ((table.filter (fun t => t.id = tid)).length)) := rfl
  rw [hdel2]
  have hle := filter_id_count_le_one table tid h
  rcases Nat.le_one_iff_eq_zero_or_eq_one.mp hle with h0 | h1
  · rw [h0]
    constructor
    · intro habs
      exact absurd habs (by decide)
    · rintro ⟨t, ht, hid⟩
      have hmem : t ∈ table.filter (fun t => t.id = tid) :=
        List.mem_filter.mpr ⟨ht, by simp [hid]⟩
      rw [List.length_eq_zero] at h0
      rw [h0] at hmem
      cases hmem
  · rw [h1]
    constructor
    · intro _
      have hne : table.filter (fun t => t.id = tid) ≠ [] := by
        intro hnil
        rw [hnil] at h1
        cases h1
      obtain ⟨t, ht⟩ := List.exists_mem_of_ne_nil _ hne
      have hm := List.mem_filter.mp ht
      exact ⟨t, hm.1, by simpa using hm.2⟩
    · intro _
      decide

/-- Concrete instance of `delete_found_spec`: deleting id 5 from a
one-row table reports not-found, deleting id 1 reports found. -/
theorem delete_found_spec_witness :
    (TradeRepository.delete [sample_open_trade] 5).2 = false ∧
    (TradeRepository.delete [sample_open_trade] 1).2 = true := by
  have h5 := (delete_found_spec [sample_open_trade] 5 (by decide)).1
  have h1 := (delete_found_spec [sample_open_trade] 1 (by decide)).1
  constructor
  · cases hb : (TradeRepository.delete [sample_open_trade] 5).2 with
    | false => rfl
    | true => exact absurd (h5.mp hb) (by decide)
  · exact h1.mpr ⟨sample_open_trade, List.mem_singleton.mpr rfl, rfl⟩

/-- A second stored trade with the same symbol, later entry time. -/
def aapl_row_2 : Trade :=
  { sample_open_trade with id := 2, entry_time := 20 }

/-- Claim C4 evaluated on the code: listing an empty table with
limit 50 and offset 0 returns zero items and total 0 (the part of the
claim the code satisfies), but the route computes `total` as the length
of the returned page, not the count of all matching records: on a
two-row table with limit 1 it reports total 1 while 2 records match the
filter. -/
theorem list_total_counts_page_only :
    (list_trades_route [] (some ("AAPL".toList)) 50 0).trades = [] ∧
    (list_trades_route [] (some ("AAPL".toList)) 50 0).total = 0 ∧
    (list_trades_route [sample_open_trade, aapl_row_2]
      (some ("AAPL".toList)) 1 0).total = 1 ∧
    (matching_trades [sample_open_trade, aapl_row_2]
      (some ("AAPL".toList))).length = 2 := by
  refine ⟨rfl, rfl, by decide, by decide⟩
